import Mathlib

/-!
Verification of the CareCred session verification and blockchain settlement
pipeline, as a shallow embedding of `Code/Models/session.py`,
`Code/Models/blockchain.py`, `Code/Services/session_service.py` and
`Code/Services/blockchain_service.py`.

Conventions of the embedding:
- Python `datetime` values are modelled as rational numbers of minutes on a
  single timeline (`DateTime`); differences of two such values are minutes.
- Python `float` quantities (rates, distances, hours, credits) are modelled
  as rationals, so that the arithmetic of the source is exact.
- Python functions that can raise are modelled with `Except`; pydantic
  field validators return `Except String α` (raising `ValueError msg`
  corresponds to `.error msg`).
- Many method bodies in the source are the stub `pass`.  Where a claim is
  decided by such a missing body, the corresponding definition is modelled
  from the spec and its doc comment starts with `Modelled from the spec:`.
  Definitions without that marker are translated from implemented source.
-/

namespace CareCred

/-- Timestamps: minutes on a global timeline, as exact rationals. -/
abbrev DateTime := ℚ

/-! ## GPS locations (`Code/Models/session.py`, class `GPSLocation`) -/

/-- Source `GPSLocation` (session.py lines 38-62): latitude, longitude,
accuracy in meters, optional address.  The capture timestamp field is kept
as well; pydantic range constraints on the fields are separate validators
and are not needed by any claim, except `validate_accuracy` below. -/
structure GPSLocation where
  latitude : ℚ
  longitude : ℚ
  accuracy : ℚ
  timestamp : DateTime := 0
  address : Option String := none
  deriving Repr, DecidableEq

/-- Source `GPSLocation.validate_accuracy` (session.py lines 50-54):
pydantic validator raising `ValueError` when the accuracy exceeds the
1 km ceiling, returning the value unchanged otherwise. -/
def GPSLocation.validate_accuracy (v : ℚ) : Except String ℚ :=
  if v > 1000 then .error "GPS accuracy too low" else .ok v

/-! ## Location validation (`Code/Services/session_service.py`) -/

/-- Source `LocationValidationResult` (session_service.py lines 40-48):
result object for location validation; `error_message` is `None` on
success.  The `validation_timestamp` field is kept as a plain time. -/
structure LocationValidationResult where
  is_valid : Bool
  distance_meters : ℚ
  within_acceptable_radius : Bool
  accuracy_acceptable : Bool
  validation_timestamp : DateTime := 0
  error_message : Option String := none
  deriving Repr, DecidableEq

/-- Source `GeolocationService.__init__` (session_service.py lines 730-734):
default verification radius of 50 meters. -/
def GeolocationService.verification_radius_meters : ℚ := 50

/-- Source `GeolocationService.__init__` (session_service.py lines 730-734):
accuracy threshold of 10 meters, the configured ceiling on reported GPS
accuracy. -/
def GeolocationService.accuracy_threshold_meters : ℚ := 10

/-- Modelled from the spec: the body of
`GeolocationService.verify_location` (session_service.py lines 737-749) is
the stub `pass`.  Per spec section 4.1 the validator returns an invalid
result (never raises) when the reported accuracy exceeds the configured
ceiling or the great-circle distance between candidate and target exceeds
the allowed radius, and a valid result otherwise.  The haversine distance
itself (`GeolocationService.calculate_distance`, also a `pass` stub) is
real trigonometric arithmetic with no source body, so it is abstracted
here as an explicit distance-function parameter `dist`; every theorem
below is quantified over `dist` and hence holds for the haversine
instance.  `allowed_radius = none` models the optional Python argument
defaulting to the configured 50 m radius. -/
def GeolocationService.verify_location (dist : GPSLocation → GPSLocation → ℚ)
    (accuracy_threshold : ℚ) (user_location target_location : GPSLocation)
    (allowed_radius : Option ℚ) (now : DateTime) : LocationValidationResult :=
  let radius := allowed_radius.getD GeolocationService.verification_radius_meters
  let d := dist user_location target_location
  let acc_ok : Bool := decide (user_location.accuracy ≤ accuracy_threshold)
  let in_radius : Bool := decide (d ≤ radius)
  { is_valid := acc_ok && in_radius
    distance_meters := d
    within_acceptable_radius := in_radius
    accuracy_acceptable := acc_ok
    validation_timestamp := now
    error_message :=
      if ¬ acc_ok then some "reported GPS accuracy exceeds the configured ceiling"
      else if ¬ in_radius then some "checkout GPS too far from session address"
      else none }

/-! ## Session model (`Code/Models/session.py`, class `Session`) -/

/-- Source `SessionStatus` enum (session.py lines 8-16). -/
inductive SessionStatus where
  | requested
  | approved
  | scheduled
  | checked_in
  | in_progress
  | completed
  | cancelled
  | disputed
  deriving Repr, DecidableEq

/-- Source `SessionType` enum (session.py lines 19-28). -/
inductive SessionType where
  | grocery_shopping
  | technology_help
  | transportation
  | companionship
  | light_housekeeping
  | meal_preparation
  | pet_care
  | home_maintenance
  | medical_appointment
  deriving Repr, DecidableEq

/-- Source `Session` (session.py lines 65-114): the fields of the session
record that take part in the lifecycle, check-in and checkout tracking and
credit computation.  Rating, review, audit-timestamp and blockchain
linkage fields play no role in any claim and are omitted; identifiers are
strings as in the source. -/
structure Session where
  session_id : String
  student_id : String
  senior_id : String
  session_type : SessionType
  status : SessionStatus := .requested
  scheduled_start_time : Option DateTime := none
  scheduled_end_time : Option DateTime := none
  actual_start_time : Option DateTime := none
  actual_end_time : Option DateTime := none
  estimated_duration_hours : ℚ
  actual_duration_hours : Option ℚ := none
  senior_address : String
  check_in_location : Option GPSLocation := none
  check_out_location : Option GPSLocation := none
  check_in_time : Option DateTime := none
  check_out_time : Option DateTime := none
  credit_amount : Option ℚ := none
  hourly_rate : ℚ := 15
  deriving Repr, DecidableEq

/-- Source default of `Session.hourly_rate` (session.py line 113):
`Field(default=15.00, gt=0.0, le=100.0)`. -/
def Session.default_hourly_rate : ℚ := 15

/-- Source `Session.validate_end_time` (session.py lines 121-126): pydantic
validator on `scheduled_end_time`.  It raises `ValueError` only when the
incoming value is non-None, `scheduled_start_time` is among the already
validated values and is non-None, and the end is not strictly after the
start; in every other case the value is returned unchanged.  `values`
containing a non-None start is modelled by the `Option` argument being
`some`. -/
def Session.validate_end_time (v : Option DateTime)
    (scheduled_start_time : Option DateTime) : Except String (Option DateTime) :=
  match v, scheduled_start_time with
  | some e, some s =>
      if e ≤ s then .error "End time must be after start time" else .ok (some e)
  | _, _ => .ok v

/-- Source `Session.validate_actual_end_time` (session.py lines 128-133):
pydantic validator on `actual_end_time`, same shape as
`validate_end_time` but against `actual_start_time`. -/
def Session.validate_actual_end_time (v : Option DateTime)
    (actual_start_time : Option DateTime) : Except String (Option DateTime) :=
  match v, actual_start_time with
  | some e, some s =>
      if e ≤ s then .error "Actual end time must be after actual start time" else .ok (some e)
  | _, _ => .ok v

/-! ## Session duration and credit computation -/

/-- Modelled from the spec: the body of `Session.calculate_duration`
(session.py lines 135-137) is the stub `pass`.  Spec sections 4.2 and 8:
the actual duration in hours is the difference between checkout time and
check-in time expressed in hours; times are minutes here, so the
difference is divided by 60. -/
def Session.calculate_duration (check_in_time check_out_time : DateTime) : ℚ :=
  (check_out_time - check_in_time) / 60

/-- Named multiplicative bonus, spec section 4.2 (for example weekend
service with multiplier 1.1). -/
structure BonusMultiplier where
  name : String
  multiplier : ℚ
  deriving Repr, DecidableEq

/-- Modelled from the spec: the body of `Session.calculate_credits`
(session.py lines 139-141) is the stub `pass`.  Spec section 4.2:
`credit_amount = duration x hourly_rate x applicable bonus multipliers`,
the named bonus multipliers being multiplicative and stacking. -/
def Session.calculate_credits (duration_hours hourly_rate : ℚ)
    (bonuses : List BonusMultiplier) : ℚ :=
  duration_hours * hourly_rate * (bonuses.map (fun b => b.multiplier)).prod

/-! ## Session state machine transitions (`Code/Services/session_service.py`) -/

/-- Source `SessionService.__init__` (session_service.py line 55): the
configured maximum session duration of 8 hours. -/
def SessionService.max_session_duration : ℚ := 8

/-- Source `SessionService.__init__` (session_service.py line 56): the
configured GPS verification radius of 50 meters. -/
def SessionService.gps_verification_radius : ℚ := 50

/-- Typed business-rule failures of the session transitions, spec
sections 4.2 and 7 (transitions return typed failure results). -/
inductive SessionTransitionError where
  | wrongState
  | missingTimes
  | endNotAfterStart
  | durationTooLong
  | locationMismatch
  | noCheckIn
  | checkoutNotAfterCheckin
  deriving Repr, DecidableEq

/-- Modelled from the spec: the body of `SessionService.schedule_session`
(session_service.py lines 108-118) is the stub `pass`.  Spec section 4.2,
`APPROVED to SCHEDULED`: requires both a start and an end time, end
strictly after start, and duration at most the configured maximum session
duration (hours); on success the session becomes `SCHEDULED` with the
given times recorded. -/
def SessionService.schedule_session (max_duration_hours : ℚ) (s : Session)
    (start_time_arg end_time_arg : Option DateTime) :
    Except SessionTransitionError Session :=
  if s.status ≠ SessionStatus.approved then .error .wrongState
  else
    match start_time_arg with
    | none => .error .missingTimes
    | some st =>
        match end_time_arg with
        | none => .error .missingTimes
        | some en =>
            if en ≤ st then .error .endNotAfterStart
            else if (en - st) / 60 > max_duration_hours then .error .durationTooLong
            else .ok { s with status := .scheduled
                              scheduled_start_time := some st
                              scheduled_end_time := some en }

/-- Modelled from the spec: the bodies of `Session.end_session`
(session.py lines 147-149) and the checkout path of the session service
are stubs.  Spec section 4.2, `IN_PROGRESS to COMPLETED`: requires
checkout GPS validation against the target address (same radius rule as
check-in) and checkout time strictly after check-in time; computes
`actual_duration_hours` and `credit_amount` via `calculate_duration` and
`calculate_credits` and moves the session to `COMPLETED`, recording the
checkout time and location.  The distance function is abstracted exactly
as in `GeolocationService.verify_location`. -/
def SessionService.checkout (dist : GPSLocation → GPSLocation → ℚ)
    (s : Session) (gps_location target_location : GPSLocation)
    (checkout_time : DateTime) (bonuses : List BonusMultiplier) :
    Except SessionTransitionError Session :=
  if s.status ≠ SessionStatus.in_progress then .error .wrongState
  else if ¬ (GeolocationService.verify_location dist
      GeolocationService.accuracy_threshold_meters gps_location target_location
      none checkout_time).is_valid then .error .locationMismatch
  else
    match s.check_in_time with
    | none => .error .noCheckIn
    | some t_in =>
        if checkout_time ≤ t_in then .error .checkoutNotAfterCheckin
        else
          let dur := Session.calculate_duration t_in checkout_time
          .ok { s with status := .completed
                       check_out_time := some checkout_time
                       check_out_location := some gps_location
                       actual_end_time := some checkout_time
                       actual_duration_hours := some dur
                       credit_amount :=
                         some (Session.calculate_credits dur s.hourly_rate bonuses) }

/-! ## Signature collection (`Code/Models/blockchain.py`,
`Code/Services/blockchain_service.py`, class `SignatureService`) -/

/-- Source `SignatureStatus` enum (blockchain.py lines 15-18). -/
inductive SignatureStatus where
  | pending
  | collected
  | expired
  deriving Repr, DecidableEq

/-- Source `SignatureRequest` (blockchain.py lines 76-96): dual-party
signature collection record with two optional signature slots, per-party
signing timestamps, status and expiry deadline.  Identifiers are strings
(source uses UUIDs). -/
structure SignatureRequest where
  request_id : String
  session_id : String
  student_id : String
  senior_id : String
  session_data_hash : String
  student_signature : Option String := none
  senior_signature : Option String := none
  student_signed_at : Option DateTime := none
  senior_signed_at : Option DateTime := none
  status : SignatureStatus := .pending
  expires_at : DateTime
  created_at : DateTime := 0
  completed_at : Option DateTime := none
  notification_sent : Bool := false
  deriving Repr, DecidableEq

/-- Modelled from the spec: spec section 4.4, a request is past its
deadline when the current time is after `expires_at`
(`AlreadyExpiredError` is raised for submissions past the deadline). -/
def SignatureRequest.is_past_deadline (req : SignatureRequest) (now : DateTime) : Bool :=
  decide (req.expires_at < now)

/-- Modelled from the spec: the body of
`SignatureService.check_signature_completeness` (blockchain_service.py
lines 228-238) is the stub `pass`.  Spec section 4.4 `is_complete`: true
iff both signature slots are non-null and the request is not expired. -/
def SignatureRequest.is_complete (req : SignatureRequest) (now : DateTime) : Bool :=
  req.student_signature.isSome && req.senior_signature.isSome &&
    !(req.is_past_deadline now)

/-- Typed failures of signature submission, spec section 4.4; the source
defines no such exception classes (blockchain_service.py only defines
`SignatureError`), the spec names them. -/
inductive SubmitSignatureError where
  | NotAParticipantError
  | AlreadyExpiredError
  deriving Repr, DecidableEq

/-- Modelled from the spec: the body of
`SignatureService.submit_signature` (blockchain_service.py lines 214-226)
is the stub `pass`.  Spec section 4.4 `submit`: fails with
`NotAParticipantError` if the submitter is not one of the two session
principals; fails with `AlreadyExpiredError` if past the deadline;
otherwise overwrites only the submitting party its own signature slot and
signing timestamp, leaving the other slot untouched. -/
def SignatureService.submit_signature (req : SignatureRequest)
    (user_id : String) (signature : String) (now : DateTime) :
    Except SubmitSignatureError SignatureRequest :=
  if user_id ≠ req.student_id ∧ user_id ≠ req.senior_id then
    .error .NotAParticipantError
  else if req.is_past_deadline now then
    .error .AlreadyExpiredError
  else if user_id = req.student_id then
    .ok { req with student_signature := some signature
                   student_signed_at := some now }
  else
    .ok { req with senior_signature := some signature
                   senior_signed_at := some now }

/-! ## Session logs and ledger settlement (`Code/Models/blockchain.py`,
`Code/Services/blockchain_service.py`) -/

/-- Source `TaskType` enum (blockchain.py lines 21-27). -/
inductive TaskType where
  | companionship
  | transportation
  | technology_help
  | household_tasks
  | medication_reminder
  | other
  deriving Repr, DecidableEq

/-- Source `SessionLog` (blockchain.py lines 30-44): the
privacy-preserving payload committed to the ledger.  All signature and
hash fields are required strings in the source model; `duration` is in
minutes; the `metadata` dictionary is omitted. -/
structure SessionLog where
  session_id : String
  student_id_hash : String
  senior_id_hash : String
  start_time : DateTime
  end_time : DateTime
  duration : ℤ
  location_hash : String
  task_type : TaskType
  student_signature : String
  senior_signature : String
  session_hash : String
  credit_amount : ℚ
  verification_level : String := "standard"
  deriving Repr, DecidableEq

/-- Modelled from the spec: the body of
`BlockchainVerificationService.check_duplicate_sessions`
(blockchain_service.py lines 420-430) is the stub `pass`.  Spec sections
4.5 and 4.6: returns true iff a transaction for the same session already
exists on the ledger.  The ledger is modelled as the list of committed
session logs. -/
def check_duplicate_sessions (ledger : List SessionLog) (log : SessionLog) : Bool :=
  ledger.any (fun l => l.session_id = log.session_id)

/-- Typed failures of the settlement commit, spec sections 3 and 4.5. -/
inductive CommitError where
  | duplicateSession
  | signaturesIncomplete
  | invalidTimes
  deriving Repr, DecidableEq

/-- Modelled from the spec: the body of
`SolanaService.write_session_to_blockchain` (blockchain_service.py lines
46-59) is the stub `pass`.  Spec section 4.5 with the section 3
invariant: before submission the duplicate check is consulted, and a
SessionLog may be committed only if both signatures in its
SignatureRequest are present and the request is not expired, and the
session checkout time is strictly after its check-in time; on success the
log is appended to the ledger.  `req` is the SignatureRequest belonging
to `log`. -/
def write_session_to_blockchain (ledger : List SessionLog) (log : SessionLog)
    (req : SignatureRequest) (now : DateTime) :
    Except CommitError (List SessionLog) :=
  if check_duplicate_sessions ledger log then .error .duplicateSession
  else if ¬ req.is_complete now then .error .signaturesIncomplete
  else if log.end_time ≤ log.start_time then .error .invalidTimes
  else .ok (ledger ++ [log])

/-! ## Hashing and privacy layer (`Code/Services/blockchain_service.py`,
class `HashingService`) -/

/-- Python runtime errors that the implemented constructor can raise.  The
source file defines `BlockchainError`, `SignatureError` and
`VerificationError` (blockchain_service.py lines 458-470) and no
`HashingError` class. -/
inductive PyRuntimeError where
  | AttributeError
  deriving Repr, DecidableEq

/-- Source `HashingService` state: `self.salt_key` holds the UTF-8
encoding of the salt string passed to the constructor; the byte string is
modelled by the string it encodes, UTF-8 encoding being injective. -/
structure HashingService where
  salt_key : String
  deriving Repr, DecidableEq

/-- Source `HashingService.__init__` (blockchain_service.py lines
256-263), which is implemented: `self.salt_key = salt_key.encode('utf-8')`.
There is no availability or non-emptiness check on the salt: any string,
including the empty string, is stored silently.  An unavailable salt is
modelled by the argument `none` (Python `None`), on which `None.encode`
raises `AttributeError`. -/
def HashingService.init (salt_key : Option String) :
    Except PyRuntimeError HashingService :=
  match salt_key with
  | none => .error .AttributeError
  | some s => .ok { salt_key := s }

/-- Modelled from the spec: the body of
`HashingService.hash_sensitive_data` (blockchain_service.py lines
303-313) is the stub `pass`.  Spec section 4.3: a deterministic salted
one-way digest keyed by the stored salt.  The cryptographic digest is
modelled by a concrete deterministic function of the salt bytes and the
data; one-wayness and collision resistance are outside the model, the
claims only concern determinism and salt handling. -/
def HashingService.hash_sensitive_data (svc : HashingService) (data : String) : ℕ :=
  (svc.salt_key ++ "|" ++ data).data.foldl
    (fun h c => (h * 31 + c.toNat) % 1000000007) 7

/-! ## Verification service (`Code/Services/blockchain_service.py`,
class `BlockchainVerificationService`) -/

/-- Source `VerificationResult` (blockchain.py lines 99-118): point-in-time
assertion of session integrity.  Fields not touched by any claim
(public proof URL, block number, error list) are omitted;
`verification_details` is kept as a plain string. -/
structure VerificationResult where
  session_id : String
  transaction_id : Option String := none
  is_verified : Bool
  verification_timestamp : DateTime := 0
  confirmations : ℤ := 0
  integrity_check : Bool
  signatures_valid : Bool
  credit_eligible : Bool
  verification_details : String := ""
  verified_by : String
  deriving Repr, DecidableEq

/-- Entry of a batch verification: either a per-session verification
result or an infrastructure-error marker for that session, spec sections
4.6 and 8. -/
inductive BatchVerifyEntry where
  | result (r : VerificationResult)
  | infrastructureFailure (detail : String)
  deriving Repr, DecidableEq

/-- Modelled from the spec: the body of
`BlockchainVerificationService.batch_verify_sessions`
(blockchain_service.py lines 396-406) is the stub `pass`.  Spec section
4.6: applies the single-session verification logic independently per id,
one entry per input id in input order; an infrastructure failure
(`VerificationError`) on one id is caught and recorded as a marker for
that id only, never aborting the batch.  The single-session verifier is
abstracted as the `Except`-valued parameter `verify_one`, its `.error`
case being an infrastructure failure. -/
def batch_verify_sessions (verify_one : String → Except String VerificationResult)
    (session_ids : List String) : List BatchVerifyEntry :=
  session_ids.map (fun i =>
    match verify_one i with
    | .ok r => .result r
    | .error e => .infrastructureFailure e)

/-! ## Concrete instances.

The scenario of spec section 8: student A, senior B, session type
companionship, scheduled 14:00-16:00, check-in at 14:02 within 50 m of the
senior address, checkout at 16:05 within 50 m.  Times are minutes from
midnight of the session day: 840, 960, 842, 965. -/

/-- Distance function placing every candidate 10 m from every target,
standing in for the haversine instance on the scenario inputs (within the
50 m radius). -/
def exDist : GPSLocation → GPSLocation → ℚ := fun _ _ => 10

/-- Reported GPS fix with 5 m accuracy, within the configured 10 m
accuracy ceiling. -/
def exGPS : GPSLocation :=
  { latitude := 40, longitude := -74, accuracy := 5 }

/-- The scenario session while in progress: checked in at 14:02 (minute
842), default hourly rate 15, no bonus applied. -/
def exSessionInProgress : Session :=
  { session_id := "sess-1"
    student_id := "student-A"
    senior_id := "senior-B"
    session_type := .companionship
    status := .in_progress
    scheduled_start_time := some 840
    scheduled_end_time := some 960
    actual_start_time := some 842
    estimated_duration_hours := 2
    senior_address := "12 Elm Street"
    check_in_location := some exGPS
    check_in_time := some 842
    hourly_rate := 15 }

/-- The scenario session after checkout at 16:05 (minute 965): duration
123 minutes = 41/20 h = 2.05 h, credit 123/4 = 30.75. -/
def exSessionCompleted : Session :=
  { exSessionInProgress with
    status := .completed
    check_out_time := some 965
    check_out_location := some exGPS
    actual_end_time := some 965
    actual_duration_hours := some (41 / 20)
    credit_amount := some (123 / 4) }

/-- The scenario session while merely approved, before scheduling. -/
def exSessionApproved : Session :=
  { exSessionInProgress with
    status := .approved
    scheduled_start_time := none
    scheduled_end_time := none
    actual_start_time := none
    check_in_location := none
    check_in_time := none }

/-- Pending signature request for the scenario session, expiring at
minute 2405 (24 h after completion). -/
def exSignatureRequest : SignatureRequest :=
  { request_id := "req-1"
    session_id := "sess-1"
    student_id := "student-A"
    senior_id := "senior-B"
    session_data_hash := "deadbeef"
    expires_at := 2405 }

/-- The scenario signature request once both parties have signed. -/
def exSignedRequest : SignatureRequest :=
  { exSignatureRequest with
    student_signature := some "sig-student"
    senior_signature := some "sig-senior"
    student_signed_at := some 1000
    senior_signed_at := some 1100 }

/-- Ledger payload derived from the completed scenario session. -/
def exSessionLog : SessionLog :=
  { session_id := "sess-1"
    student_id_hash := "h-student"
    senior_id_hash := "h-senior"
    start_time := 842
    end_time := 965
    duration := 123
    location_hash := "h-loc"
    task_type := .companionship
    student_signature := "sig-student"
    senior_signature := "sig-senior"
    session_hash := "deadbeef"
    credit_amount := 123 / 4 }

/-! ## Theorems -/

/-- Claim C4: for every candidate and target location, the GPS location
validator fails by returning an invalid result, never by raising (the
validator is a total function into `LocationValidationResult`), exactly
when the reported accuracy exceeds the configured ceiling or the distance
between candidate and target exceeds the allowed radius (its default
being the configured 50 m); otherwise it returns valid, and the distance
it reports is the computed distance.  Quantified over every distance
function, hence holding for the haversine instance. -/
theorem claim_C4 (dist : GPSLocation → GPSLocation → ℚ) (threshold : ℚ)
    (user_location target_location : GPSLocation) (allowed_radius : Option ℚ)
    (now : DateTime) :
    ((GeolocationService.verify_location dist threshold user_location
        target_location allowed_radius now).is_valid = false ↔
      (threshold < user_location.accuracy ∨
        allowed_radius.getD GeolocationService.verification_radius_meters <
          dist user_location target_location)) ∧
    (GeolocationService.verify_location dist threshold user_location
        target_location allowed_radius now).distance_meters =
      dist user_location target_location := by
  constructor
  · simp only [GeolocationService.verify_location, Bool.and_eq_false_iff,
      decide_eq_false_iff_not, not_le]
  · rfl

/-- Claim C10: the end-after-start validators of the `Session` model
enforce the ordering check only when both timestamps are present: with an
absent start time, any end value (present or not) is accepted unchanged,
so a session can hold an `actual_end_time` or `scheduled_end_time` with no
matching start time. -/
theorem claim_C10 (v : Option DateTime) :
    Session.validate_end_time v none = .ok v ∧
    Session.validate_actual_end_time v none = .ok v := by
  constructor <;> cases v <;> rfl

/-- Claim C1: every session completing the `IN_PROGRESS` to `COMPLETED`
transition ends in status `COMPLETED` with `credit_amount` equal to the
actual duration in hours (checkout minus check-in, minutes over 60) times
the hourly rate times the product of all applicable bonus multipliers.
The witness instantiates the spec section 8 scenario: check-in 14:02,
checkout 16:05, default rate 15, no bonus, giving duration 2.05 h and
credit 30.75. -/
theorem claim_C1 (dist : GPSLocation → GPSLocation → ℚ) (s s2 : Session)
    (gps_location target_location : GPSLocation) (checkout_time : DateTime)
    (bonuses : List BonusMultiplier) (t_in : DateTime)
    (hin : s.check_in_time = some t_in)
    (h : SessionService.checkout dist s gps_location target_location
      checkout_time bonuses = .ok s2) :
    s2.status = SessionStatus.completed ∧
    s2.credit_amount = some ((checkout_time - t_in) / 60 * s.hourly_rate *
      (bonuses.map (fun b => b.multiplier)).prod) ∧
    s2.actual_duration_hours = some ((checkout_time - t_in) / 60) := by
  unfold SessionService.checkout at h
  rw [hin] at h
  repeat' split at h
  any_goals exact Except.noConfusion h
  rename_i t2 heq hlt
  injection heq with heq2
  subst heq2
  injection h with h2
  subst h2
  exact ⟨rfl, by simp [Session.calculate_credits, Session.calculate_duration],
    by simp [Session.calculate_duration]⟩

/-- Equality of the scenario checkout with its explicit result record,
evaluated once and shared by the scenario witnesses. -/
theorem exCheckout_eq :
    SessionService.checkout exDist exSessionInProgress exGPS exGPS 965 [] =
      .ok exSessionCompleted := by
  simp only [SessionService.checkout, GeolocationService.verify_location,
    GeolocationService.accuracy_threshold_meters,
    GeolocationService.verification_radius_meters, exDist, exGPS,
    exSessionInProgress, exSessionCompleted,
    Session.calculate_duration, Session.calculate_credits]
  norm_num

/-- Claim C1 witness: the spec section 8 scenario ends `COMPLETED` with
credit 123/4 = 30.75 and duration 41/20 = 2.05 h. -/
theorem claim_C1_witness :
    exSessionInProgress.check_in_time = some 842 ∧
    SessionService.checkout exDist exSessionInProgress exGPS exGPS 965 [] =
      .ok exSessionCompleted ∧
    exSessionCompleted.status = SessionStatus.completed ∧
    exSessionCompleted.credit_amount = some (123 / 4) ∧
    exSessionCompleted.actual_duration_hours = some (41 / 20) := by
  have main := claim_C1 exDist exSessionInProgress exSessionCompleted exGPS exGPS
    965 [] 842 rfl exCheckout_eq
  refine ⟨rfl, exCheckout_eq, main.1, ?_, ?_⟩
  · rw [main.2.1]
    norm_num [exSessionInProgress]
  · rw [main.2.2]
    norm_num

/-- Claim C7: `actual_duration_hours` computed at checkout equals checkout
time minus check-in time expressed in hours, and is never negative (the
checkout transition requires checkout strictly after check-in). -/
theorem claim_C7 (dist : GPSLocation → GPSLocation → ℚ) (s s2 : Session)
    (gps_location target_location : GPSLocation) (checkout_time : DateTime)
    (bonuses : List BonusMultiplier) (t_in : DateTime)
    (hin : s.check_in_time = some t_in)
    (h : SessionService.checkout dist s gps_location target_location
      checkout_time bonuses = .ok s2) :
    s2.actual_duration_hours = some ((checkout_time - t_in) / 60) ∧
    0 ≤ (checkout_time - t_in) / 60 := by
  unfold SessionService.checkout at h
  rw [hin] at h
  repeat' split at h
  any_goals exact Except.noConfusion h
  rename_i t2 heq hlt
  injection heq with heq2
  subst heq2
  injection h with h2
  subst h2
  have hpos : t_in < checkout_time := lt_of_not_le hlt
  refine ⟨by simp [Session.calculate_duration], ?_⟩
  apply div_nonneg _ (by norm_num : (0:ℚ) ≤ 60)
  linarith

/-- Claim C7 witness: in the spec section 8 scenario the computed duration
is (965 - 842)/60 = 41/20 hours and is nonnegative. -/
theorem claim_C7_witness :
    exSessionCompleted.actual_duration_hours = some ((965 - 842) / 60) ∧
    0 ≤ ((965 : ℚ) - 842) / 60 :=
  claim_C7 exDist exSessionInProgress exSessionCompleted exGPS exGPS 965 [] 842
    rfl exCheckout_eq

/-- Claim C5: the `APPROVED` to `SCHEDULED` transition succeeds only when
the session is `APPROVED`, both a scheduled start and end time are given,
the end is strictly after the start, and the scheduled duration (minutes
over 60) does not exceed the configured maximum session duration of 8
hours; on success the times are recorded and the session becomes
`SCHEDULED`. -/
theorem claim_C5 (s s2 : Session) (start_time_arg end_time_arg : Option DateTime)
    (h : SessionService.schedule_session SessionService.max_session_duration s
      start_time_arg end_time_arg = .ok s2) :
    s.status = SessionStatus.approved ∧
    start_time_arg.isSome = true ∧ end_time_arg.isSome = true ∧
    s2.status = SessionStatus.scheduled ∧
    s2.scheduled_start_time = start_time_arg ∧
    s2.scheduled_end_time = end_time_arg ∧
    start_time_arg.getD 0 < end_time_arg.getD 0 ∧
    (end_time_arg.getD 0 - start_time_arg.getD 0) / 60 ≤ 8 := by
  unfold SessionService.schedule_session at h
  split at h
  · exact Except.noConfusion h
  rename_i hstatus
  rcases start_time_arg with _ | st
  · exact Except.noConfusion h
  rcases end_time_arg with _ | en
  · exact Except.noConfusion h
  dsimp only [] at h
  split at h
  · exact Except.noConfusion h
  rename_i hen
  split at h
  · exact Except.noConfusion h
  rename_i hdur
  injection h with h2
  subst h2
  refine ⟨not_not.mp hstatus, rfl, rfl, rfl, rfl, rfl, lt_of_not_le hen, ?_⟩
  simpa [SessionService.max_session_duration] using le_of_not_lt hdur

/-- Claim C5 witness: scheduling the approved scenario session for
14:00-16:00 (minutes 840 to 960, a 2 hour duration) succeeds, so the
hypotheses of the transition theorem are satisfiable. -/
theorem claim_C5_witness :
    exSessionApproved.status = SessionStatus.approved ∧
    (Option.some (840 : DateTime)).isSome = true ∧
    ((960 : DateTime) - 840) / 60 ≤ 8 := by
  have h : SessionService.schedule_session SessionService.max_session_duration
      exSessionApproved (some 840) (some 960) =
      .ok { exSessionApproved with status := .scheduled
                                   scheduled_start_time := some 840
                                   scheduled_end_time := some 960 } := by
    simp only [SessionService.schedule_session, SessionService.max_session_duration,
      exSessionApproved, exSessionInProgress]
    norm_num
  have main := claim_C5 exSessionApproved _ (some 840) (some 960) h
  exact ⟨main.1, main.2.1, by simpa using main.2.2.2.2.2.2.2⟩

/-- Inversion of a successful ledger commit: the duplicate check was
negative, the signature request complete, the logged times ordered, and
the new ledger is the old one with the log appended.  Shared by the
theorems about the commit operation. -/
theorem write_ok_inv (ledger ledger2 : List SessionLog) (log : SessionLog)
    (req : SignatureRequest) (now : DateTime)
    (h : write_session_to_blockchain ledger log req now = .ok ledger2) :
    check_duplicate_sessions ledger log = false ∧
    req.is_complete now = true ∧
    log.start_time < log.end_time ∧
    ledger2 = ledger ++ [log] := by
  unfold write_session_to_blockchain at h
  repeat' split at h
  any_goals exact Except.noConfusion h
  rename_i hdup hcomplete hend
  injection h with h2
  subst h2
  refine ⟨?_, not_not.mp hcomplete, lt_of_not_le hend, rfl⟩
  cases hb : check_duplicate_sessions ledger log
  · rfl
  · exact absurd hb hdup

/-- Commit of the signed scenario log to the empty ledger, evaluated once
and shared by the settlement witnesses. -/
theorem exCommit_eq :
    write_session_to_blockchain [] exSessionLog exSignedRequest 1200 =
      .ok [exSessionLog] := by
  simp only [write_session_to_blockchain, check_duplicate_sessions,
    SignatureRequest.is_complete, SignatureRequest.is_past_deadline,
    exSessionLog, exSignedRequest, exSignatureRequest]
  norm_num

/-- Claim C2: a SessionLog is committed to the ledger only when both
signatures of its SignatureRequest are present, the request is not past
its deadline, and the checkout time of the logged session is strictly
after its check-in time; every successful commit appends exactly that log,
so no commit ever puts a violating SessionLog on the ledger. -/
theorem claim_C2 (ledger ledger2 : List SessionLog) (log : SessionLog)
    (req : SignatureRequest) (now : DateTime)
    (h : write_session_to_blockchain ledger log req now = .ok ledger2) :
    req.student_signature.isSome = true ∧
    req.senior_signature.isSome = true ∧
    req.is_past_deadline now = false ∧
    log.start_time < log.end_time ∧
    ledger2 = ledger ++ [log] := by
  obtain ⟨-, hc, hend, happ⟩ := write_ok_inv ledger ledger2 log req now h
  unfold SignatureRequest.is_complete at hc
  simp only [Bool.and_eq_true, Bool.not_eq_true'] at hc
  exact ⟨hc.1.1, hc.1.2, hc.2, hend, happ⟩

/-- Claim C2 witness: committing the signed scenario log to the empty
ledger succeeds, so the hypotheses of the invariant theorem are
satisfiable. -/
theorem claim_C2_witness :
    exSignedRequest.student_signature.isSome = true ∧
    exSignedRequest.senior_signature.isSome = true ∧
    exSignedRequest.is_past_deadline 1200 = false ∧
    exSessionLog.start_time < exSessionLog.end_time := by
  have main := claim_C2 [] [exSessionLog] exSessionLog exSignedRequest 1200
    exCommit_eq
  exact ⟨main.1, main.2.1, main.2.2.1, main.2.2.2.1⟩

/-- Claim C3: committing the same session log twice yields exactly one
ledger transaction: whenever a commit succeeds, the prior ledger held no
transaction for the session, the resulting ledger holds exactly one, and
a second commit of the same log is stopped by the duplicate check with
`duplicateSession`, so it creates no second transaction. -/
theorem claim_C3 (ledger ledger2 : List SessionLog) (log : SessionLog)
    (req : SignatureRequest) (now now2 : DateTime)
    (h : write_session_to_blockchain ledger log req now = .ok ledger2) :
    write_session_to_blockchain ledger2 log req now2 = .error .duplicateSession ∧
    ledger.countP (fun l => l.session_id = log.session_id) = 0 ∧
    ledger2.countP (fun l => l.session_id = log.session_id) = 1 := by
  obtain ⟨hdup, -, -, happ⟩ := write_ok_inv ledger ledger2 log req now h
  have hcount0 : ledger.countP (fun l => l.session_id = log.session_id) = 0 := by
    unfold check_duplicate_sessions at hdup
    rw [List.countP_eq_zero]
    intro a ha
    have := List.any_eq_false.mp hdup a ha
    simpa using this
  have hmem : check_duplicate_sessions ledger2 log = true := by
    unfold check_duplicate_sessions
    rw [happ]
    exact List.any_eq_true.mpr ⟨log, by simp, by simp⟩
  refine ⟨?_, hcount0, ?_⟩
  · unfold write_session_to_blockchain
    rw [hmem]
    simp
  · rw [happ, List.countP_append, hcount0]
    simp

/-- Claim C3 witness: the scenario log committed to the empty ledger, then
committed again, yields a ledger with exactly one transaction for the
session, the second commit failing the duplicate check. -/
theorem claim_C3_witness :
    write_session_to_blockchain [exSessionLog] exSessionLog exSignedRequest 1300 =
      .error .duplicateSession ∧
    List.countP (fun l => l.session_id = exSessionLog.session_id)
      [exSessionLog] = 1 := by
  have main := claim_C3 [] [exSessionLog] exSessionLog exSignedRequest 1200 1300
    exCommit_eq
  exact ⟨main.1, main.2.2⟩

/-- Claim C6: signature submission fails with `NotAParticipantError` when
the submitter is neither session principal, fails with
`AlreadyExpiredError` when past the expiry deadline, and otherwise
overwrites only the submitting party its own signature slot: the explicit
result records show the other party its slot unchanged, so a
re-submission by the same participant (applied to the updated request)
again touches only that participant its own slot. -/
theorem claim_C6 (req : SignatureRequest) (user_id signature : String)
    (now : DateTime) :
    (user_id ≠ req.student_id ∧ user_id ≠ req.senior_id →
      SignatureService.submit_signature req user_id signature now =
        .error .NotAParticipantError) ∧
    ((user_id = req.student_id ∨ user_id = req.senior_id) →
      req.is_past_deadline now = true →
      SignatureService.submit_signature req user_id signature now =
        .error .AlreadyExpiredError) ∧
    (user_id = req.student_id → req.is_past_deadline now = false →
      SignatureService.submit_signature req user_id signature now =
        .ok { req with student_signature := some signature
                       student_signed_at := some now }) ∧
    (user_id ≠ req.student_id → user_id = req.senior_id →
      req.is_past_deadline now = false →
      SignatureService.submit_signature req user_id signature now =
        .ok { req with senior_signature := some signature
                       senior_signed_at := some now }) := by
  refine ⟨?_, ?_, ?_, ?_⟩
  · intro hne
    unfold SignatureService.submit_signature
    rw [if_pos hne]
  · intro hmem hexp
    unfold SignatureService.submit_signature
    rw [if_neg (by tauto), if_pos hexp]
  · intro hstud hexp
    unfold SignatureService.submit_signature
    rw [if_neg (by tauto), if_neg (by simp [hexp]), if_pos hstud]
  · intro hne hsen hexp
    unfold SignatureService.submit_signature
    rw [if_neg (by tauto), if_neg (by simp [hexp]), if_neg hne]

/-- Claim C6 witness: on the scenario request (student-A, senior-B, expiry
at minute 2405) a stranger is rejected as not a participant, a submission
at minute 9999 is rejected as expired, and in-window submissions by each
principal update exactly their own slot. -/
theorem claim_C6_witness :
    SignatureService.submit_signature exSignatureRequest "mallory" "sig-x" 100 =
      .error .NotAParticipantError ∧
    SignatureService.submit_signature exSignatureRequest "student-A" "sig-late" 9999 =
      .error .AlreadyExpiredError ∧
    SignatureService.submit_signature exSignatureRequest "student-A" "sig-student" 1000 =
      .ok { exSignatureRequest with student_signature := some "sig-student"
                                    student_signed_at := some 1000 } ∧
    SignatureService.submit_signature exSignatureRequest "senior-B" "sig-senior" 1100 =
      .ok { exSignatureRequest with senior_signature := some "sig-senior"
                                    senior_signed_at := some 1100 } := by
  have c1 := (claim_C6 exSignatureRequest "mallory" "sig-x" 100).1
  have c2 := (claim_C6 exSignatureRequest "student-A" "sig-late" 9999).2.1
  have c3 := (claim_C6 exSignatureRequest "student-A" "sig-student" 1000).2.2.1
  have c4 := (claim_C6 exSignatureRequest "senior-B" "sig-senior" 1100).2.2.2
  refine ⟨c1 ⟨by decide, by decide⟩, c2 (Or.inl rfl) ?_, c3 rfl ?_, c4 (by decide) rfl ?_⟩
  · norm_num [exSignatureRequest, SignatureRequest.is_past_deadline]
  · norm_num [exSignatureRequest, SignatureRequest.is_past_deadline]
  · norm_num [exSignatureRequest, SignatureRequest.is_past_deadline]

/-- Claim C8 counterexample: the implemented constructor
`HashingService.__init__` stores the UTF-8 encoding of whatever salt it is
given with no availability check: the empty salt is accepted silently and
a digest is then produced with the empty salt, and an absent (None) salt
raises `AttributeError` — the source defines no `HashingError` class at
all, so no input makes the layer raise one. -/
theorem claim_C8_counterexample :
    HashingService.init (some "") = .ok { salt_key := "" } ∧
    HashingService.hash_sensitive_data { salt_key := "" } "data" = 317996671 ∧
    HashingService.init none = .error .AttributeError := by
  refine ⟨rfl, by decide, rfl⟩

/-- Claim C8 as amended: the constructor stores the UTF-8 encoding of the
provided salt and performs no availability check — an absent salt fails
with `AttributeError` (no `HashingError` exists in the source) and an
empty salt is accepted silently; with the salt fixed, hashing the same
input always yields the same digest, across constructions of the service
(process restarts), since the digest depends only on salt and input. -/
theorem claim_C8 (salt data : String) (svc svc2 : HashingService)
    (h1 : HashingService.init (some salt) = .ok svc)
    (h2 : HashingService.init (some salt) = .ok svc2) :
    svc.salt_key = salt ∧
    svc.hash_sensitive_data data = svc2.hash_sensitive_data data ∧
    HashingService.init none = .error .AttributeError := by
  unfold HashingService.init at h1 h2
  injection h1 with h1b
  injection h2 with h2b
  subst h1b
  subst h2b
  exact ⟨rfl, rfl, rfl⟩

/-- Claim C8 witness: two services constructed from the same salt "pepper"
digest the same input identically. -/
theorem claim_C8_witness :
    ({ salt_key := "pepper" } : HashingService).salt_key = "pepper" ∧
    HashingService.hash_sensitive_data { salt_key := "pepper" } "data" =
      HashingService.hash_sensitive_data { salt_key := "pepper" } "data" ∧
    HashingService.init none = .error .AttributeError :=
  claim_C8 "pepper" "data" { salt_key := "pepper" } { salt_key := "pepper" }
    rfl rfl

/-- Claim C9: batch verification returns exactly one entry per input id in
input order — entry k is determined by the single-session verifier on id k
alone, so a verification failure or infrastructure error on one id leaves
every other entry exactly what the verifier yields for its own id, and the
batch never aborts. -/
theorem claim_C9 (verify_one : String → Except String VerificationResult)
    (session_ids : List String) :
    (batch_verify_sessions verify_one session_ids).length = session_ids.length ∧
    ∀ k : ℕ, (batch_verify_sessions verify_one session_ids)[k]? =
      session_ids[k]?.map (fun i =>
        match verify_one i with
        | .ok r => BatchVerifyEntry.result r
        | .error e => BatchVerifyEntry.infrastructureFailure e) := by
  constructor
  · simp [batch_verify_sessions]
  · intro k
    simp [batch_verify_sessions, List.getElem?_map]

end CareCred
